import Mathlib

/-!
# The form controller of the text summariser (`static/js/main.js`)

A shallow embedding of the page script: the submit handler of the
summarise form, `showError`, the example and clear buttons, and the parts of
the JavaScript platform the handler calls (`String.prototype.trim`,
`parseInt`, `Number.prototype.toFixed`, the `NaN` rule of `JSON.stringify`).

* The page is a record `UI` of the properties the script reads and writes.
* A handler is a function from the page before the event to the page after
  it, together with the list of effects it performed, in order.
* The network is an input: `FetchOutcome` says how the one `fetch` of a
  submission ended.  One run of the submit handler is taken as a whole, with
  no other event handled between its `await`s.
* Numbers are IEEE doubles given by sign, integer significand and binary
  exponent, so that `toFixed` is computed on the exact value.
* JavaScript strings are Lean strings (sequences of code points); every code
  point that `trim` and `parseInt` look at lies in the basic plane.
-/

namespace TextSummarizer

/-! ## Strings -/

/-- The code points of the ECMAScript productions WhiteSpace and
LineTerminator: what `String.prototype.trim` and `parseInt` strip. -/
def isWhiteSpace (c : Char) : Bool :=
  let n := c.toNat
  n == 0x9 || n == 0xA || n == 0xB || n == 0xC || n == 0xD || n == 0x20 ||
  n == 0xA0 || n == 0x1680 || (0x2000 ≤ n && n ≤ 0x200A) || n == 0x2028 ||
  n == 0x2029 || n == 0x202F || n == 0x205F || n == 0x3000 || n == 0xFEFF

/-- TrimString with `start`: drop the leading white space. -/
def trimStart (cs : List Char) : List Char :=
  cs.dropWhile isWhiteSpace

/-- TrimString with `end`: drop the trailing white space. -/
def trimEnd (cs : List Char) : List Char :=
  (cs.reverse.dropWhile isWhiteSpace).reverse

/-- The method `String.prototype.trim`. -/
def jsTrim (s : String) : String :=
  String.mk (trimEnd (trimStart s.data))

/-- The character of a decimal digit `d < 10`. -/
def digitChar (d : Nat) : Char :=
  Char.ofNat (48 + d)

/-- Worker of `decimalDigits`: peel the last digit, at most `fuel` times. -/
def digitsAux : Nat → Nat → List Char → List Char
  | 0, _, acc => acc
  | fuel + 1, n, acc =>
    if n < 10 then digitChar n :: acc
    else digitsAux fuel (n / 10) (digitChar (n % 10) :: acc)

/-- The decimal representation of a natural number, most significant digit
first, `0` for zero. -/
def decimalDigits (n : Nat) : List Char :=
  digitsAux (n + 1) n []

/-- The value of one digit in a radix up to 16, if the character is one. -/
def digitValue (radix : Nat) (c : Char) : Option Nat :=
  let n := c.toNat
  let v : Option Nat :=
    if 48 ≤ n ∧ n ≤ 57 then some (n - 48)
    else if 97 ≤ n ∧ n ≤ 102 then some (n - 87)
    else if 65 ≤ n ∧ n ≤ 70 then some (n - 55)
    else none
  match v with
  | some d => if d < radix then some d else none
  | none => none

/-- Read the longest run of radix digits at the head of `cs`: the number of
digits read and their value, starting from the value `acc`. -/
def readDigits (radix : Nat) : List Char → Nat → Nat → Nat × Nat
  | [], count, acc => (count, acc)
  | c :: cs, count, acc =>
    match digitValue radix c with
    | some d => readDigits radix cs (count + 1) (acc * radix + d)
    | none => (count, acc)

/-! ## Numbers -/

/-- A Number value: `NaN`, an infinity, or the finite value
`(-1)^neg * m * 2^e`. -/
inductive JSNumber where
  | nan
  | inf (neg : Bool)
  | fin (neg : Bool) (m : Nat) (e : Int)
  deriving DecidableEq, Repr

/-- Worker of `bitLength`: halve until zero, at most `fuel` times. -/
def bitsAux : Nat → Nat → Nat
  | 0, _ => 0
  | fuel + 1, n => if n = 0 then 0 else bitsAux fuel (n / 2) + 1

/-- The number of binary digits of a natural number, `0` for zero. -/
def bitLength (n : Nat) : Nat :=
  bitsAux n n

/-- The Number nearest to a natural number: round to nearest, ties to even,
on the 53 leading bits; infinity when the rounded value has more than 1024
bits, that is from `2^1024` on. -/
def roundNat (neg : Bool) (n : Nat) : JSNumber :=
  if n < 2 ^ 53 then .fin neg n 0
  else
    let sh := bitLength n - 53
    let q := n / 2 ^ sh
    let r := n % 2 ^ sh
    let half := 2 ^ (sh - 1)
    let q1 := if half < r ∨ (r = half ∧ q % 2 = 1) then q + 1 else q
    if 1024 < bitLength q1 + sh then .inf neg else .fin neg q1 sh

/-- The function `parseInt(string)` called without a radix.  Leading white
space and one sign are dropped, a `0x` or `0X` makes the radix 16, the
longest run of digits is read; no digit gives `NaN`, and the integer read is
rounded to a Number (a zero keeps the sign). -/
def parseInt (string : String) : JSNumber :=
  let s0 := trimStart string.data
  let neg := s0.head? == some '-'
  let s1 := if s0.head? == some '-' || s0.head? == some '+' then s0.tail else s0
  let hex := s1.take 2 == ['0', 'x'] || s1.take 2 == ['0', 'X']
  let radix := if hex then 16 else 10
  let s2 := if hex then s1.drop 2 else s1
  let z := readDigits radix s2 0 0
  if z.1 = 0 then .nan else roundNat neg z.2

/-- Whether the Number is a finite value below zero. -/
def JSNumber.isNegative : JSNumber → Bool
  | .fin neg m _ => neg && m != 0
  | _ => false

/-- Whether the Number is finite with magnitude at least `10^21`. -/
def JSNumber.isHuge : JSNumber → Bool
  | .fin _ m e =>
    if 0 ≤ e then 10 ^ 21 ≤ m * 2 ^ e.toNat else 10 ^ 21 * 2 ^ (-e).toNat ≤ m
  | _ => false

/-- The integer `n` for which `n / 10^f` is nearest the magnitude
`m * 2^e`, the larger one of two. -/
def scaledNearest (f m : Nat) (e : Int) : Nat :=
  if 0 ≤ e then m * 2 ^ e.toNat * 10 ^ f
  else (2 * m * 10 ^ f + 2 ^ (-e).toNat) / (2 * 2 ^ (-e).toNat)

/-- The left side of a comparison of `a * 10^p` with `b * 2^E`, cleared of
negative exponents: `a * 10^p ≤ b * 2^E` iff
`scaleLeft a p E ≤ scaleRight b p E`. -/
def scaleLeft (a : Nat) (p E : Int) : Nat :=
  a * 10 ^ p.toNat * 2 ^ (-E).toNat

/-- The right side of the comparison of `scaleLeft`. -/
def scaleRight (b : Nat) (p E : Int) : Nat :=
  b * 2 ^ E.toNat * 10 ^ (-p).toNat

/-- The least `j` from `j` on with `10^(-j-1) ≤ m * 2^e`, for a value below
one, searched with fuel. -/
def leadingZeros : Nat → Nat → Nat → Int → Nat
  | 0, j, _, _ => j
  | fuel + 1, j, m, e =>
    if scaleLeft 1 (-((j : Int) + 1)) e ≤ scaleRight m (-((j : Int) + 1)) e then j
    else leadingZeros fuel (j + 1) m e

/-- The decimal exponent `n` of a positive value: `10^(n-1) ≤ m * 2^e < 10^n`. -/
def decimalExponent (m : Nat) (e : Int) : Int :=
  let whole := if 0 ≤ e then m * 2 ^ e.toNat else m / 2 ^ (-e).toNat
  if 0 < whole then ((decimalDigits whole).length : Int)
  else -((leadingZeros 400 0 m e : Nat) : Int)

/-- The search of Number::toString for the shortest digits: for `k` digits
the two `k`-digit multiples of `10^(n0-k)` around the value, in quarter units
of the last place `2^E` (`vU` the value, `loU` and `hiU` the ends of the
interval of reals that round to it, closed when the significand is even).
Gives the digits as a number and the decimal exponent. -/
def shortestDigits (vU loU hiU : Nat) (E : Int) (closed : Bool) (n0 : Int) :
    Nat → Nat → Nat × Int
  | 0, k =>
    (scaleRight vU (n0 - k) E / scaleLeft 1 (n0 - k) E, n0)
  | fuel + 1, k =>
    let p : Int := n0 - k
    let sF := scaleRight vU p E / scaleLeft 1 p E
    let sC := sF + 1
    let within : Nat → Bool := fun s =>
      if closed then
        decide (scaleRight loU p E ≤ scaleLeft s p E ∧ scaleLeft s p E ≤ scaleRight hiU p E)
      else
        decide (scaleRight loU p E < scaleLeft s p E ∧ scaleLeft s p E < scaleRight hiU p E)
    let dF := scaleRight vU p E - scaleLeft sF p E
    let dC := scaleLeft sC p E - scaleRight vU p E
    let norm : Nat → Nat × Int := fun s => if s = 10 ^ k then (1, n0 + 1) else (s, n0)
    if within sF ∧ (¬ within sC ∨ dF ≤ dC) then norm sF
    else if within sC then norm sC
    else shortestDigits vU loU hiU E closed n0 fuel (k + 1)

/-- Number::toString for a positive finite value `m * 2^e`: the shortest
digits that read back as the same double, laid out in positional or
exponent form by the size of the decimal exponent. -/
def positiveToString (m : Nat) (e : Int) : List Char :=
  let exp : Int := max (e + (bitLength m : Int) - 53) (-1074)
  let mant : Nat := if exp ≤ e then m * 2 ^ (e - exp).toNat else m / 2 ^ (exp - e).toNat
  let loU : Nat := if mant = 2 ^ 52 ∧ -1074 < exp then 4 * mant - 1 else 4 * mant - 2
  let r := shortestDigits (4 * mant) loU (4 * mant + 2) (exp - 2) (mant % 2 == 0)
    (decimalExponent m e) 17 1
  let ds := decimalDigits r.1
  let k : Int := ds.length
  let n := r.2
  if k ≤ n ∧ n ≤ 21 then ds ++ List.replicate (n - k).toNat '0'
  else if 0 < n ∧ n ≤ 21 then ds.take n.toNat ++ '.' :: ds.drop n.toNat
  else if -6 < n ∧ n ≤ 0 then '0' :: '.' :: (List.replicate (-n).toNat '0' ++ ds)
  else
    let ex : Int := n - 1
    let tail := 'e' :: (if ex < 0 then '-' else '+') :: decimalDigits ex.natAbs
    if k = 1 then ds ++ tail else ds.take 1 ++ '.' :: (ds.drop 1 ++ tail)

/-- Number::toString in radix 10. -/
def numberToString : JSNumber → List Char
  | .nan => "NaN".data
  | .inf neg => if neg then "-Infinity".data else "Infinity".data
  | .fin neg m e =>
    if m = 0 then ['0']
    else if neg then '-' :: positiveToString m e
    else positiveToString m e

/-- The method `Number.prototype.toFixed(f)` for `0 ≤ f ≤ 100`.  A value that
is not finite, or of magnitude `10^21` or more, is written by
Number::toString; any other as the digits of the nearest multiple of
`10^-f`, at least one before the point and `f` after it. -/
def toFixed (x : JSNumber) (f : Nat) : String :=
  match x with
  | .nan => String.mk (numberToString x)
  | .inf _ => String.mk (numberToString x)
  | .fin _ m e =>
    let s : List Char := if x.isNegative then ['-'] else []
    if x.isHuge then String.mk (s ++ numberToString (.fin false m e))
    else
      let n := scaledNearest f m e
      let m0 := decimalDigits n
      if f ≠ 0 then
        let m1 := if m0.length ≤ f then List.replicate (f + 1 - m0.length) '0' ++ m0 else m0
        let k := m1.length
        String.mk (s ++ (m1.take (k - f) ++ '.' :: m1.drop (k - f)))
      else String.mk (s ++ m0)

/-! ## The page -/

/-- The two values the script gives to `style.display`. -/
inductive Display where
  | none
  | block
  deriving DecidableEq, Repr

/-- An `li` made by the success branch: its class and the markup assigned to
its `innerHTML`. -/
structure ListItem where
  className : String
  innerHTML : String
  deriving DecidableEq, Repr

/-- The properties of the page the script reads and writes, named after the
constants that hold the elements. -/
structure UI where
  /-- The text of `inputText.value`. -/
  inputText : String
  /-- The text of `numSentences.value`. -/
  numSentences : String
  /-- The value of `summarySection.style.display`. -/
  summarySection : Display
  /-- The text of `summaryContent.textContent`. -/
  summaryContent : String
  /-- The value of `keywordsSection.style.display`. -/
  keywordsSection : Display
  /-- The children of `keywordsList`. -/
  keywordsList : List ListItem
  /-- The value of `loadingSpinner.style.display`. -/
  loadingSpinner : Display
  /-- The text of `errorAlert.textContent`. -/
  errorAlertText : String
  /-- The value of `errorAlert.style.display`. -/
  errorAlert : Display
  deriving DecidableEq, Repr

/-- A value in the serialised request body. -/
inductive JSONValue where
  | null
  | number (x : JSNumber)
  | string (s : String)
  deriving DecidableEq, Repr

/-- How `JSON.stringify` writes a Number: a finite one as itself (a negative
zero as `0`), `NaN` and the infinities as `null`. -/
def jsonOfNumber : JSNumber → JSONValue
  | .nan => .null
  | .inf _ => .null
  | .fin neg m e => if m = 0 then .number (.fin false 0 0) else .number (.fin neg m e)

/-- The arguments of one `fetch` call; the body is the object given to
`JSON.stringify`, field by field. -/
structure Request where
  url : String
  method : String
  headers : List (String × String)
  body : List (String × JSONValue)
  deriving DecidableEq, Repr

/-- The elements the script scrolls to. -/
inductive Target where
  | summarySection
  | errorAlert
  deriving DecidableEq, Repr

/-- What a handler does besides writing the page. -/
inductive Effect where
  | preventDefault
  | fetch (req : Request)
  | consoleError (error : String)
  | scrollIntoView (target : Target)
  deriving DecidableEq, Repr

/-- The parsed body of a response, read by the contract of `/summarize`:
each field the handler looks at is absent or has the type of the contract. -/
structure ResponseData where
  summary : Option String
  top_keywords : Option (List (String × JSNumber))
  error : Option String
  deriving DecidableEq, Repr

/-- How the `fetch` of one submission ends. -/
inductive FetchOutcome where
  /-- The promise of `fetch` rejects: no response. -/
  | rejected (error : String)
  /-- A response arrives with `response.ok` as given and a body that is not
  JSON (an HTML error page, an empty body): `response.json()` rejects. -/
  | notJSON (ok : Bool) (error : String)
  /-- A response arrives with `response.ok` and the parsed body `data`. -/
  | response (ok : Bool) (data : ResponseData)
  deriving DecidableEq, Repr

/-! ## The handlers -/

/-- The handler of `DOMContentLoaded`: hide the four regions. -/
def onReady (ui : UI) : UI :=
  { ui with
    summarySection := .none
    keywordsSection := .none
    errorAlert := .none
    loadingSpinner := .none }

/-- The function `showError(message)`. -/
def showError (message : String) (ui : UI) : UI × List Effect :=
  ({ ui with
      errorAlertText := message
      errorAlert := .block
      loadingSpinner := .none },
   [.scrollIntoView .errorAlert])

/-- The `li` the `forEach` callback appends for one `item` of
`data.top_keywords`. -/
def keywordItem (item : String × JSNumber) : ListItem :=
  let keyword := item.1
  let score := toFixed item.2 4
  { className := "list-group-item d-flex justify-content-between align-items-center"
    innerHTML :=
      "\n                            <span>" ++ keyword ++
      "</span>\n                            <span class=\"badge bg-primary rounded-pill\">" ++
      score ++ "</span>\n                        " }

/-- The value of `data.error || fallback`: an absent or empty `error` is
falsy. -/
def orElse (error : Option String) (fallback : String) : String :=
  match error with
  | some e => if e = "" then fallback else e
  | none => fallback

/-- The callback of `forEach`: append the `li` of one item to the list. -/
def appendKeyword (ui : UI) (item : String × JSNumber) : UI :=
  { ui with keywordsList := ui.keywordsList ++ [keywordItem item] }

/-- The branch `if (response.ok)`: show the summary, empty the keyword list
and fill it from a `top_keywords` that is present and not empty, scroll to
the summary. -/
def showResult (data : ResponseData) (ui : UI) : UI × List Effect :=
  let ui1 := { ui with summaryContent := data.summary.getD "", summarySection := .block }
  let ui2 := { ui1 with keywordsList := [] }
  let ui3 :=
    match data.top_keywords with
    | some top_keywords =>
      if 0 < top_keywords.length then
        { top_keywords.foldl appendKeyword ui2 with keywordsSection := .block }
      else ui2
    | none => ui2
  (ui3, [.scrollIntoView .summarySection])

/-- The body of the `try` block after the call of `fetch`: an `await` that
rejects throws before the page is written. -/
def afterFetch (outcome : FetchOutcome) (ui : UI) : Except String (UI × List Effect) :=
  match outcome with
  | .rejected error => .error error
  | .notJSON _ error => .error error
  | .response ok data =>
    let ui1 := { ui with loadingSpinner := .none }
    if ok then .ok (showResult data ui1)
    else .ok (showError (orElse data.error "An error occurred while processing your text.") ui1)

/-- The request the submit handler sends for the trimmed `text` and the
parsed `sentences`. -/
def summarizeRequest (text : String) (sentences : JSNumber) : Request :=
  { url := "/summarize"
    method := "POST"
    headers := [("Content-Type", "application/json")]
    body := [("text", .string text), ("num_sentences", jsonOfNumber sentences)] }

/-- The submit handler of the form, run to its end for the given outcome of
the request.  The result is the page and the effects, or the value the
handler throws. -/
def onSubmit (outcome : FetchOutcome) (ui : UI) : Except String (UI × List Effect) :=
  let text := jsTrim ui.inputText
  let sentences := parseInt ui.numSentences
  if text = "" then
    let r := showError "Please enter some text to summarize." ui
    .ok (r.1, .preventDefault :: r.2)
  else
    let ui1 := { ui with
      loadingSpinner := .block
      errorAlert := .none
      summarySection := .none
      keywordsSection := .none }
    let sent := [Effect.preventDefault, Effect.fetch (summarizeRequest text sentences)]
    match afterFetch outcome ui1 with
    | .ok r => .ok (r.1, sent ++ r.2)
    | .error error =>
      let ui2 := { ui1 with loadingSpinner := .none }
      let r := showError "Network error: Could not connect to the server." ui2
      .ok (r.1, sent ++ Effect.consoleError error :: r.2)

/-- The text the example button puts into the input. -/
def exampleText : String :=
  "Text summarization is the process of distilling the most important information from a source text. There are two main approaches to text summarization: extractive and abstractive. Extractive summarization involves selecting important sentences from the original text to form a summary. Abstractive summarization involves generating new sentences that capture the meaning of the original text. TF-IDF, which stands for Term Frequency-Inverse Document Frequency, is a numerical statistic used in information retrieval to reflect how important a word is to a document in a collection. In the context of text summarization, TF-IDF can be used to identify keywords that are significant to the document."

/-- The click handler of `add-example`. -/
def onAddExample (ui : UI) : UI :=
  { ui with inputText := exampleText }

/-- The click handler of `clear-text`. -/
def onClearText (ui : UI) : UI :=
  { ui with
    inputText := ""
    summarySection := .none
    keywordsSection := .none
    errorAlert := .none }

/-- The requests among the effects, in order. -/
def requests : List Effect → List Request
  | [] => []
  | .fetch req :: rest => req :: requests rest
  | _ :: rest => requests rest

/-- The page the submit handler hands to the code after `fetch`. -/
def pending (ui : UI) : UI :=
  { ui with
    loadingSpinner := .block
    errorAlert := .none
    summarySection := .none
    keywordsSection := .none }

/-! ## Predicates of the statements -/

/-- The text `s` is in the fixed notation with `f` decimals: a minus sign
exactly when `negative`, then one or more digits, a point and exactly `f`
digits, the digits reading as the integer `n`, and no zero in front of the
point other than a lone `0`. -/
def FixedDecimals (f : Nat) (s : String) (negative : Bool) (n : Nat) : Prop :=
  ∃ a b : List Char,
    s.data = (if negative then ['-'] else []) ++ (a ++ '.' :: b) ∧
    a ≠ [] ∧ b.length = f ∧
    (∀ c ∈ a ++ b, c.isDigit = true) ∧
    readDigits 10 (a ++ b) 0 0 = ((a ++ b).length, n) ∧
    (a = ['0'] ∨ a.head? ≠ some '0')

/-- The integer `n` is the one nearest to `m * 2^e * 10^f`, the larger of
two: `n ≤ m * 2^e * 10^f + 1/2 < n + 1`, cleared of fractions. -/
def NearestScaled (f m : Nat) (e : Int) (n : Nat) : Prop :=
  2 * n * 2 ^ (-e).toNat ≤ 2 * (m * 2 ^ e.toNat * 10 ^ f) + 2 ^ (-e).toNat ∧
  2 * (m * 2 ^ e.toNat * 10 ^ f) + 2 ^ (-e).toNat < (2 * n + 2) * 2 ^ (-e).toNat

/-- A value of the request body that is a positive integer. -/
def JSONValue.isPositiveInteger : JSONValue → Bool
  | .number (.fin neg m e) => !neg && m != 0 && decide (0 ≤ e)
  | _ => false

/-! ## Sample pages and responses -/

/-- A page left by an earlier successful submission, its input now holding
white space only and its sentence count `abc`. -/
def blankUI : UI :=
  { inputText := " \n\t"
    numSentences := "abc"
    summarySection := .block
    summaryContent := "old summary"
    keywordsSection := .block
    keywordsList := [keywordItem ("old", .fin false 1 0)]
    loadingSpinner := .none
    errorAlertText := ""
    errorAlert := .none }

/-- The page of `blankUI` with the input ` some text ` and the sentence
count given. -/
def filledUI (count : String) : UI :=
  { blankUI with inputText := " some text ", numSentences := count }

/-- The body of a failure response with the given `error` field. -/
def errorData (error : Option String) : ResponseData :=
  { summary := none, top_keywords := none, error := error }

/-- The body of a success response. -/
def summaryData (summary : String) (top_keywords : Option (List (String × JSNumber))) :
    ResponseData :=
  { summary := some summary, top_keywords := top_keywords, error := none }

/-! # Properties

## Lemmas on trimming and on the shape of a run -/

theorem trimEnd_nil : trimEnd [] = [] := rfl

/-- A text of white space only trims to the empty string. -/
theorem jsTrim_of_blank (s : String) (h : ∀ c ∈ s.data, isWhiteSpace c = true) :
    jsTrim s = "" := by
  have h1 : trimStart s.data = [] := by
    unfold trimStart
    exact List.dropWhile_eq_nil_iff.mpr h
  unfold jsTrim
  rw [h1, trimEnd_nil]

/-- The submit handler on a text that trims to nothing: only `showError`
runs. -/
theorem onSubmit_blank (outcome : FetchOutcome) (ui : UI) (h : jsTrim ui.inputText = "") :
    onSubmit outcome ui =
      .ok ({ ui with
              errorAlertText := "Please enter some text to summarize."
              errorAlert := .block
              loadingSpinner := .none },
           [.preventDefault, .scrollIntoView .errorAlert]) := by
  unfold onSubmit
  simp [h, showError]

/-- The submit handler on a text that does not trim to nothing, for a
response that arrives with a parsed body. -/
theorem onSubmit_response (ok : Bool) (data : ResponseData) (ui : UI)
    (h : jsTrim ui.inputText ≠ "") :
    onSubmit (.response ok data) ui =
      .ok ((if ok then showResult data { pending ui with loadingSpinner := .none }
            else showError (orElse data.error "An error occurred while processing your text.")
              { pending ui with loadingSpinner := .none }).1,
           [Effect.preventDefault,
            Effect.fetch (summarizeRequest (jsTrim ui.inputText) (parseInt ui.numSentences))] ++
           (if ok then showResult data { pending ui with loadingSpinner := .none }
            else showError (orElse data.error "An error occurred while processing your text.")
              { pending ui with loadingSpinner := .none }).2) := by
  unfold onSubmit
  cases ok <;> simp [h, afterFetch, pending]

/-- The submit handler on a text that does not trim to nothing, when an
`await` of the `try` block rejects. -/
theorem onSubmit_thrown (outcome : FetchOutcome) (error : String) (ui : UI)
    (h : jsTrim ui.inputText ≠ "")
    (ho : outcome = .rejected error ∨ ∃ ok, outcome = .notJSON ok error) :
    onSubmit outcome ui =
      .ok ({ ui with
              loadingSpinner := .none
              errorAlert := .block
              errorAlertText := "Network error: Could not connect to the server."
              summarySection := .none
              keywordsSection := .none },
           [Effect.preventDefault,
            Effect.fetch (summarizeRequest (jsTrim ui.inputText) (parseInt ui.numSentences)),
            Effect.consoleError error,
            Effect.scrollIntoView .errorAlert]) := by
  unfold onSubmit
  rcases ho with rfl | ⟨ok, rfl⟩ <;> simp [h, afterFetch, showError]

/-! ## Lemmas on decimal digits -/

theorem digitsAux_append (fuel n : Nat) (acc : List Char) :
    digitsAux fuel n acc = digitsAux fuel n [] ++ acc := by
  induction fuel generalizing n acc with
  | zero => simp [digitsAux]
  | succ fuel ih =>
    unfold digitsAux
    split
    · simp
    · rw [ih (n / 10) (digitChar (n % 10) :: acc), ih (n / 10) [digitChar (n % 10)]]
      simp

theorem digitsAux_fuel (fuel : Nat) : ∀ n f2 : Nat, n < fuel → n < f2 →
    digitsAux fuel n [] = digitsAux f2 n [] := by
  induction fuel with
  | zero => intro n f2 h; omega
  | succ fuel ih =>
    intro n f2 h1 h2
    obtain ⟨g, rfl⟩ : ∃ g, f2 = g + 1 := ⟨f2 - 1, by omega⟩
    unfold digitsAux
    split
    · rfl
    · rw [digitsAux_append fuel, digitsAux_append g]
      rw [ih (n / 10) g (by omega) (by omega)]

theorem decimalDigits_small (n : Nat) (h : n < 10) : decimalDigits n = [digitChar n] := by
  simp [decimalDigits, digitsAux, h]

theorem decimalDigits_step (n : Nat) (h : 10 ≤ n) :
    decimalDigits n = decimalDigits (n / 10) ++ [digitChar (n % 10)] := by
  have h1 : ¬ n < 10 := by omega
  unfold decimalDigits
  rw [digitsAux, if_neg h1, digitsAux_append]
  rw [digitsAux_fuel n (n / 10) (n / 10 + 1) (by omega) (by omega)]

theorem digitChar_isDigit (d : Nat) (h : d < 10) : (digitChar d).isDigit = true := by
  interval_cases d <;> rfl

theorem digitValue_digitChar (d : Nat) (h : d < 10) : digitValue 10 (digitChar d) = some d := by
  interval_cases d <;> rfl

theorem decimalDigits_isDigit (n : Nat) : ∀ c ∈ decimalDigits n, c.isDigit = true := by
  induction n using Nat.strong_induction_on with
  | _ n ih =>
    by_cases h : n < 10
    · rw [decimalDigits_small n h]
      intro c hc
      simp at hc
      rw [hc]; exact digitChar_isDigit n h
    · rw [decimalDigits_step n (by omega)]
      intro c hc
      simp at hc
      rcases hc with hc | hc
      · exact ih (n / 10) (by omega) c hc
      · rw [hc]; exact digitChar_isDigit _ (by omega)

theorem decimalDigits_ne_nil (n : Nat) : decimalDigits n ≠ [] := by
  by_cases h : n < 10
  · rw [decimalDigits_small n h]; simp
  · rw [decimalDigits_step n (by omega)]; simp

/-- Reading the decimal digits of `n` in front of `rest` reads `n`. -/
theorem readDigits_decimalDigits (n : Nat) : ∀ (rest : List Char) (count acc : Nat),
    readDigits 10 (decimalDigits n ++ rest) count acc =
      readDigits 10 rest (count + (decimalDigits n).length)
        (acc * 10 ^ (decimalDigits n).length + n) := by
  induction n using Nat.strong_induction_on with
  | _ n ih =>
    intro rest count acc
    by_cases h : n < 10
    · rw [decimalDigits_small n h]
      simp [readDigits, digitValue_digitChar n h]
    · rw [decimalDigits_step n (by omega)]
      rw [List.append_assoc, ih (n / 10) (by omega)]
      simp only [List.singleton_append, List.length_append, List.length_singleton]
      rw [readDigits]
      simp only [digitValue_digitChar (n % 10) (by omega)]
      have e1 : count + (decimalDigits (n / 10)).length + 1
          = count + ((decimalDigits (n / 10)).length + 1) := by omega
      have e2 : (acc * 10 ^ (decimalDigits (n / 10)).length + n / 10) * 10 + n % 10
          = acc * 10 ^ ((decimalDigits (n / 10)).length + 1) + n := by
        rw [pow_succ, ← Nat.mul_assoc, Nat.add_mul]
        omega
      rw [e1, e2]

theorem readDigits_zeros (z : Nat) : ∀ (rest : List Char) (count : Nat),
    readDigits 10 (List.replicate z '0' ++ rest) count 0 = readDigits 10 rest (count + z) 0 := by
  induction z with
  | zero => intro rest count; simp
  | succ z ih =>
    intro rest count
    rw [List.replicate_succ, List.cons_append, readDigits]
    have h0 : digitValue 10 '0' = some 0 := by decide
    simp only [h0]
    rw [show 0 * 10 + 0 = 0 from rfl, ih]
    congr 1
    omega

theorem scaledNearest_nearest (f m : Nat) (e : Int) :
    NearestScaled f m e (scaledNearest f m e) := by
  unfold NearestScaled scaledNearest
  by_cases h : 0 ≤ e
  · have h1 : (-e).toNat = 0 := by omega
    simp only [h, if_true, h1, pow_zero, Nat.mul_one]
    omega
  · have h1 : e.toNat = 0 := by omega
    simp only [h, if_false, h1, pow_zero, Nat.mul_one]
    have hd : 0 < 2 * 2 ^ (-e).toNat := by positivity
    set d := 2 ^ (-e).toNat with hdd
    set x := 2 * m * 10 ^ f + d with hx
    have e1 := Nat.div_add_mod x (2 * d)
    have e2 := Nat.mod_lt x hd
    have e3 : 2 * (m * 10 ^ f) + d = x := by rw [hx]; ring
    rw [e3]
    constructor
    · calc 2 * (x / (2 * d)) * d = 2 * d * (x / (2 * d)) := by ring
        _ ≤ x := by omega
    · calc x = 2 * d * (x / (2 * d)) + x % (2 * d) := e1.symm
        _ < 2 * d * (x / (2 * d)) + 2 * d := by omega
        _ = (2 * (x / (2 * d)) + 2) * d := by ring

/-- The decimal digits of a number other than zero do not start with `0`. -/
theorem decimalDigits_head (n : Nat) : n ≠ 0 → (decimalDigits n).head? ≠ some '0' := by
  induction n using Nat.strong_induction_on with
  | _ n ih =>
    intro hn
    by_cases h : n < 10
    · rw [decimalDigits_small n h]
      have h1 : 1 ≤ n := by omega
      interval_cases n <;> decide
    · rw [decimalDigits_step n (by omega),
        List.head?_append_of_ne_nil _ (decimalDigits_ne_nil (n / 10))]
      exact ih (n / 10) (by omega) (by omega)

/-- The text of `toFixed(f)` for a finite Number below `10^21` in magnitude
and `f` at least one. -/
theorem toFixed_fixedDecimals (f : Nat) (neg : Bool) (m : Nat) (e : Int) (hf : f ≠ 0)
    (hh : (JSNumber.fin neg m e).isHuge = false) :
    FixedDecimals f (toFixed (.fin neg m e) f) (JSNumber.fin neg m e).isNegative
      (scaledNearest f m e) := by
  unfold toFixed
  simp only [hh, Bool.false_eq_true, if_false, hf, ne_eq, not_false_eq_true, if_true]
  set n := scaledNearest f m e
  set m0 := decimalDigits n with hm0
  set m1 := (if m0.length ≤ f then List.replicate (f + 1 - m0.length) '0' ++ m0 else m0) with hm1
  have hlen0 : 0 < m0.length := List.length_pos.mpr (decimalDigits_ne_nil n)
  have hlen : f + 1 ≤ m1.length := by
    rw [hm1]; split
    · simp; omega
    · omega
  have hdig : ∀ c ∈ m1, c.isDigit = true := by
    intro c hc
    rw [hm1] at hc
    split at hc
    · simp at hc
      rcases hc with ⟨_, rfl⟩ | hc
      · rfl
      · exact decimalDigits_isDigit n c hc
    · exact decimalDigits_isDigit n c hc
  have hval : readDigits 10 m1 0 0 = (m1.length, n) := by
    have h1 := readDigits_decimalDigits n [] 
    simp only [List.append_nil, readDigits] at h1
    rw [hm1]; split
    · rw [← List.append_nil (List.replicate (f + 1 - m0.length) '0' ++ m0), List.append_assoc,
        readDigits_zeros, List.append_nil, h1]
      simp
    · rw [h1]; simp
  have hhead : m1.take (m1.length - f) = ['0'] ∨
      (m1.take (m1.length - f)).head? ≠ some '0' := by
    by_cases hle : m0.length ≤ f
    · left
      have e1 : m1 = List.replicate (f + 1 - m0.length) '0' ++ m0 := by
        rw [hm1, if_pos hle]
      have e2 : m1.length = f + 1 := by
        rw [e1]; simp; omega
      obtain ⟨z, hz⟩ : ∃ z, f + 1 - m0.length = z + 1 := ⟨f - m0.length, by omega⟩
      rw [e2, e1, hz, List.replicate_succ]
      simp
    · right
      have e1 : m1 = m0 := by rw [hm1, if_neg hle]
      have hn : n ≠ 0 := by
        intro h0
        apply hle
        rw [hm0, h0]
        exact Nat.one_le_iff_ne_zero.mpr hf
      obtain ⟨k, hk⟩ : ∃ k, m1.length - f = k + 1 := ⟨m1.length - f - 1, by omega⟩
      obtain ⟨d0, rest, hds⟩ := List.exists_cons_of_ne_nil (decimalDigits_ne_nil n)
      have h0 := decimalDigits_head n hn
      rw [hk, e1, hm0, hds, List.take_succ_cons, List.head?_cons]
      rw [hds, List.head?_cons] at h0
      exact h0
  refine ⟨m1.take (m1.length - f), m1.drop (m1.length - f), ?_, ?_, ?_, ?_, ?_, hhead⟩
  · split <;> simp
  · intro h
    have := congrArg List.length h
    simp at this
    omega
  · simp; omega
  · rw [List.take_append_drop]; exact hdig
  · rw [List.take_append_drop]; exact hval


theorem foldl_appendKeyword (items : List (String × JSNumber)) : ∀ ui : UI,
    items.foldl appendKeyword ui =
      { ui with keywordsList := ui.keywordsList ++ items.map keywordItem } := by
  induction items with
  | nil => intro ui; simp
  | cons item items ih =>
    intro ui
    rw [List.foldl_cons, ih]
    simp [appendKeyword]

/-- Whatever the outcome, a submit of a text that is not blank ends normally
and has sent the one request of `summarizeRequest`. -/
theorem onSubmit_requests (outcome : FetchOutcome) (ui : UI) (h : jsTrim ui.inputText ≠ "") :
    ∃ ui1 effects, onSubmit outcome ui = .ok (ui1, effects) ∧
      requests effects = [summarizeRequest (jsTrim ui.inputText) (parseInt ui.numSentences)] := by
  cases outcome with
  | rejected error =>
    exact ⟨_, _, onSubmit_thrown _ error ui h (Or.inl rfl), rfl⟩
  | notJSON ok error =>
    exact ⟨_, _, onSubmit_thrown _ error ui h (Or.inr ⟨ok, rfl⟩), rfl⟩
  | response ok data =>
    refine ⟨_, _, onSubmit_response ok data ui h, ?_⟩
    cases ok <;> simp [requests, showResult, showError]

theorem inf_or_fin_shape (c : Prop) [Decidable c] (neg : Bool) (q sh : Nat) :
    (∃ m e, 0 ≤ e ∧ (if c then JSNumber.inf neg else .fin neg q sh) = .fin neg m e) ∨
      (if c then JSNumber.inf neg else .fin neg q sh) = .inf neg := by
  by_cases hc : c
  · rw [if_pos hc]; exact Or.inr rfl
  · rw [if_neg hc]; exact Or.inl ⟨q, sh, Int.natCast_nonneg _, rfl⟩

theorem roundNat_shape (neg : Bool) (n : Nat) :
    (∃ m e, 0 ≤ e ∧ roundNat neg n = .fin neg m e) ∨ roundNat neg n = .inf neg := by
  unfold roundNat
  by_cases h1 : n < 2 ^ 53
  · rw [if_pos h1]
    exact Or.inl ⟨n, 0, le_refl _, rfl⟩
  · rw [if_neg h1]
    exact inf_or_fin_shape _ _ _ _

theorem nan_or_roundNat_shape (c : Prop) [Decidable c] (neg : Bool) (n : Nat) :
    (if c then JSNumber.nan else roundNat neg n) = .nan ∨
      (∃ s, (if c then JSNumber.nan else roundNat neg n) = .inf s) ∨
      ∃ s m e, 0 ≤ e ∧ (if c then JSNumber.nan else roundNat neg n) = .fin s m e := by
  by_cases hc : c
  · rw [if_pos hc]; exact Or.inl rfl
  · rw [if_neg hc]
    rcases roundNat_shape neg n with ⟨m, e, he, h⟩ | h
    · exact Or.inr (Or.inr ⟨_, m, e, he, h⟩)
    · exact Or.inr (Or.inl ⟨_, h⟩)

/-- What `parseInt` gives: `NaN`, an infinity, or an integer. -/
theorem parseInt_shape (s : String) :
    parseInt s = .nan ∨ (∃ neg, parseInt s = .inf neg) ∨
      ∃ neg m e, 0 ≤ e ∧ parseInt s = .fin neg m e :=
  nan_or_roundNat_shape _ _ _

theorem decimalDigits_mem (n : Nat) : ∀ c ∈ decimalDigits n, ∃ d, d < 10 ∧ c = digitChar d := by
  induction n using Nat.strong_induction_on with
  | _ n ih =>
    by_cases h : n < 10
    · rw [decimalDigits_small n h]
      intro c hc
      simp at hc
      exact ⟨n, h, hc⟩
    · rw [decimalDigits_step n (by omega)]
      intro c hc
      simp at hc
      rcases hc with hc | hc
      · exact ih (n / 10) (by omega) c hc
      · exact ⟨n % 10, by omega, hc⟩

theorem digitChar_plain (d : Nat) (h : d < 10) :
    isWhiteSpace (digitChar d) = false ∧ digitChar d ≠ '-' ∧ digitChar d ≠ '+' ∧
      digitChar d ≠ 'x' ∧ digitChar d ≠ 'X' := by
  interval_cases d <;> decide

/-- The function `parseInt` reads back the decimal digits of an integer
below `2^53`. -/
theorem parseInt_decimalDigits (n : Nat) (h : n < 2 ^ 53) :
    parseInt (String.mk (decimalDigits n)) = .fin false n 0 := by
  obtain ⟨d0, rest, hds⟩ := List.exists_cons_of_ne_nil (decimalDigits_ne_nil n)
  obtain ⟨d, hd, hd0⟩ := decimalDigits_mem n d0 (by rw [hds]; simp)
  obtain ⟨hw, hminus, hplus, _, _⟩ := digitChar_plain d hd
  have hrest : ∀ c ∈ rest, c ≠ 'x' ∧ c ≠ 'X' := by
    intro c hc
    obtain ⟨d1, hd1, rfl⟩ := decimalDigits_mem n c (by rw [hds]; simp [hc])
    obtain ⟨_, _, _, hx, hX⟩ := digitChar_plain d1 hd1
    exact ⟨hx, hX⟩
  have hread := readDigits_decimalDigits n [] 0 0
  simp only [List.append_nil, readDigits, Nat.zero_add, Nat.zero_mul] at hread
  have hlen : 0 < (decimalDigits n).length := List.length_pos.mpr (decimalDigits_ne_nil n)
  have htrim : trimStart (decimalDigits n) = decimalDigits n := by
    rw [hds, trimStart, List.dropWhile_cons, hd0, hw]; simp
  have hhex : ∀ y, y = 'x' ∨ y = 'X' → (List.take 2 (decimalDigits n) == ['0', y]) = false := by
    intro y hy
    rw [hds]
    cases rest with
    | nil => simp
    | cons c cs =>
      have := hrest c (by simp)
      simp only [List.take_succ_cons, List.take_zero]
      rcases hy with rfl | rfl
      · simp [this.1]
      · simp [this.2]
  unfold parseInt
  simp only [htrim]
  have hh1 : ((decimalDigits n).head? == some '-') = false := by
    rw [hds, hd0]; simp [hminus]
  have hh2 : ((decimalDigits n).head? == some '+') = false := by
    rw [hds, hd0]; simp [hplus]
  simp only [hh1, hh2, Bool.or_self, Bool.false_eq_true, if_false, hhex 'x' (Or.inl rfl),
    hhex 'X' (Or.inr rfl), hread]
  have hne : ¬ ((decimalDigits n).length, n).1 = 0 := by
    show ¬ (decimalDigits n).length = 0
    omega
  rw [if_neg hne, roundNat, if_pos h]


/-! ## Validation -/

/-- C1: for every page whose input text is empty or white space only, and
however a request would have ended, the submit handler issues no request,
writes "Please enter some text to summarize." into the error region and
shows the error region. -/
theorem blank_submit_shows_validation (outcome : FetchOutcome) (ui : UI)
    (h : ∀ c ∈ ui.inputText.data, isWhiteSpace c = true) :
    ∃ ui1 effects, onSubmit outcome ui = .ok (ui1, effects) ∧
      requests effects = [] ∧
      ui1.errorAlertText = "Please enter some text to summarize." ∧
      ui1.errorAlert = .block := by
  refine ⟨_, _, onSubmit_blank outcome ui (jsTrim_of_blank _ h), ?_, rfl, rfl⟩
  rfl

theorem blank_submit_shows_validation_witness :
    (∀ c ∈ blankUI.inputText.data, isWhiteSpace c = true) ∧
    ∃ ui1 effects, onSubmit (.rejected "offline") blankUI = .ok (ui1, effects) ∧
      requests effects = [] ∧
      ui1.errorAlertText = "Please enter some text to summarize." ∧
      ui1.errorAlert = .block :=
  ⟨by decide, blank_submit_shows_validation (.rejected "offline") blankUI (by decide)⟩

/-- C10: a submit with empty or white-space-only text leaves the input text,
the sentence count, the summary text and visibility and the keyword
visibility and entries as they were; it writes the validation message, shows
the error region and hides the loading indicator.  A summary that was shown
stays shown next to the message. -/
theorem blank_submit_frame (outcome : FetchOutcome) (ui : UI)
    (h : ∀ c ∈ ui.inputText.data, isWhiteSpace c = true) :
    ∃ ui1 effects, onSubmit outcome ui = .ok (ui1, effects) ∧
      ui1 = { ui with
              errorAlertText := "Please enter some text to summarize."
              errorAlert := .block
              loadingSpinner := .none } ∧
      ui1.inputText = ui.inputText ∧
      ui1.numSentences = ui.numSentences ∧
      ui1.summaryContent = ui.summaryContent ∧
      ui1.summarySection = ui.summarySection ∧
      ui1.keywordsSection = ui.keywordsSection ∧
      ui1.keywordsList = ui.keywordsList ∧
      ui1.loadingSpinner = .none ∧
      (ui.summarySection = .block → ui1.summarySection = .block ∧ ui1.errorAlert = .block) :=
  ⟨_, _, onSubmit_blank outcome ui (jsTrim_of_blank _ h), rfl, rfl, rfl, rfl, rfl, rfl, rfl, rfl,
    fun hs => ⟨hs, rfl⟩⟩

theorem blank_submit_frame_witness :
    (∀ c ∈ blankUI.inputText.data, isWhiteSpace c = true) ∧
    ∃ ui1 effects, onSubmit (.response true (summaryData "S" none)) blankUI = .ok (ui1, effects) ∧
      ui1 = { blankUI with
              errorAlertText := "Please enter some text to summarize."
              errorAlert := .block
              loadingSpinner := .none } ∧
      ui1.inputText = blankUI.inputText ∧
      ui1.numSentences = blankUI.numSentences ∧
      ui1.summaryContent = blankUI.summaryContent ∧
      ui1.summarySection = blankUI.summarySection ∧
      ui1.keywordsSection = blankUI.keywordsSection ∧
      ui1.keywordsList = blankUI.keywordsList ∧
      ui1.loadingSpinner = .none ∧
      (blankUI.summarySection = .block → ui1.summarySection = .block ∧ ui1.errorAlert = .block) :=
  ⟨by decide, blank_submit_frame (.response true (summaryData "S" none)) blankUI (by decide)⟩

/-! ## The clear button -/

/-- C8: after the clear action the input is the empty string and the
summary, keyword and error regions are hidden, whatever the page was; doing
it twice is doing it once. -/
theorem clear_resets (ui : UI) :
    (onClearText ui).inputText = "" ∧
    (onClearText ui).summarySection = .none ∧
    (onClearText ui).keywordsSection = .none ∧
    (onClearText ui).errorAlert = .none ∧
    onClearText (onClearText ui) = onClearText ui :=
  ⟨rfl, rfl, rfl, rfl, rfl⟩

/-! ## Failure responses and transport failures -/

/-- C6, as the claim states it, fails: a response that is not OK and whose
body is not JSON, such as an HTML error page, has no `error` field, and the
error region shows the network text and not the fallback text, because
`response.json()` rejects inside the `try` block. -/
theorem unparsable_failure_shows_network_error :
    ∃ ui1 effects,
      onSubmit (.notJSON false "Unexpected token <") (filledUI "3") = .ok (ui1, effects) ∧
      ui1.errorAlert = .block ∧
      ui1.errorAlertText = "Network error: Could not connect to the server." ∧
      ui1.errorAlertText ≠ "An error occurred while processing your text." :=
  ⟨_, _, onSubmit_thrown _ "Unexpected token <" _ (by decide) (Or.inr ⟨false, rfl⟩), rfl, rfl,
    by decide⟩

/-- C6, amended: a response that is not OK and whose body is a JSON object
with no `error` field makes the error region visible with the text "An error
occurred while processing your text.". -/
theorem failure_without_error_shows_fallback (data : ResponseData) (ui : UI)
    (h : jsTrim ui.inputText ≠ "") (he : data.error = none) :
    ∃ ui1 effects, onSubmit (.response false data) ui = .ok (ui1, effects) ∧
      ui1.errorAlert = .block ∧
      ui1.errorAlertText = "An error occurred while processing your text." := by
  refine ⟨_, _, onSubmit_response false data ui h, rfl, ?_⟩
  simp [showError, orElse, he]

theorem failure_without_error_shows_fallback_witness :
    jsTrim (filledUI "3").inputText ≠ "" ∧ (errorData none).error = none ∧
    ∃ ui1 effects, onSubmit (.response false (errorData none)) (filledUI "3") = .ok (ui1, effects) ∧
      ui1.errorAlert = .block ∧
      ui1.errorAlertText = "An error occurred while processing your text." :=
  ⟨by decide, rfl,
    failure_without_error_shows_fallback (errorData none) (filledUI "3") (by decide) rfl⟩

/-- C7: when the text is not blank and the request fails in transport (the
promise of `fetch` rejects), the handler ends normally with the loading
indicator hidden and the error region visible with the text "Network error:
Could not connect to the server.". -/
theorem transport_failure_shows_network_error (error : String) (ui : UI)
    (h : jsTrim ui.inputText ≠ "") :
    ∃ ui1 effects, onSubmit (.rejected error) ui = .ok (ui1, effects) ∧
      ui1.loadingSpinner = .none ∧
      ui1.errorAlert = .block ∧
      ui1.errorAlertText = "Network error: Could not connect to the server." :=
  ⟨_, _, onSubmit_thrown (.rejected error) error ui h (Or.inl rfl), rfl, rfl, rfl⟩

theorem transport_failure_shows_network_error_witness :
    jsTrim (filledUI "3").inputText ≠ "" ∧
    ∃ ui1 effects, onSubmit (.rejected "Failed to fetch") (filledUI "3") = .ok (ui1, effects) ∧
      ui1.loadingSpinner = .none ∧
      ui1.errorAlert = .block ∧
      ui1.errorAlertText = "Network error: Could not connect to the server." :=
  ⟨by decide, transport_failure_shows_network_error "Failed to fetch" (filledUI "3") (by decide)⟩

/-- C5, as the claim states it, fails: for the server message `""` the error
region shows the fallback text and not the message. -/
theorem empty_error_shows_fallback :
    ∃ ui1 effects e,
      (errorData (some "")).error = some e ∧
      onSubmit (.response false (errorData (some ""))) (filledUI "3") = .ok (ui1, effects) ∧
      ui1.errorAlertText = "An error occurred while processing your text." ∧
      ui1.errorAlertText ≠ e :=
  ⟨_, _, "", rfl, onSubmit_response false _ _ (by decide), by decide, by decide⟩

/-- C5, amended: a response that is not OK and whose body carries an `error`
field with a string `e` that is not empty makes the error region visible
with exactly the text `e`, and leaves the summary and keyword regions
hidden. -/
theorem failure_shows_server_error (data : ResponseData) (e : String) (ui : UI)
    (h : jsTrim ui.inputText ≠ "") (he : data.error = some e) (hne : e ≠ "") :
    ∃ ui1 effects, onSubmit (.response false data) ui = .ok (ui1, effects) ∧
      ui1.errorAlert = .block ∧
      ui1.errorAlertText = e ∧
      ui1.summarySection = .none ∧
      ui1.keywordsSection = .none := by
  refine ⟨_, _, onSubmit_response false data ui h, rfl, ?_, rfl, rfl⟩
  simp [showError, orElse, he, hne]

theorem failure_shows_server_error_witness :
    jsTrim (filledUI "3").inputText ≠ "" ∧
    (errorData (some "bad input")).error = some "bad input" ∧ "bad input" ≠ "" ∧
    ∃ ui1 effects,
      onSubmit (.response false (errorData (some "bad input"))) (filledUI "3")
        = .ok (ui1, effects) ∧
      ui1.errorAlert = .block ∧
      ui1.errorAlertText = "bad input" ∧
      ui1.summarySection = .none ∧
      ui1.keywordsSection = .none :=
  ⟨by decide, rfl, by decide,
    failure_shows_server_error (errorData (some "bad input")) "bad input" (filledUI "3")
      (by decide) rfl (by decide)⟩

/-! ## The request -/

/-- C2, as the claim states it, fails: for the sentence count `abc`,
`parseInt` reads no integer and the `num_sentences` field of the one request
is `null`, not a number. -/
theorem unparsable_count_sends_null :
    ∃ ui1 effects req,
      onSubmit (.rejected "offline") (filledUI "abc") = .ok (ui1, effects) ∧
      requests effects = [req] ∧
      parseInt (filledUI "abc").numSentences = .nan ∧
      req.body.lookup "num_sentences" = some .null ∧
      ∀ x, req.body.lookup "num_sentences" ≠ some (.number x) :=
  ⟨_, _, _, onSubmit_thrown _ "offline" _ (by decide) (Or.inl rfl), rfl, by decide, by decide,
    by
      intro x hx
      have hnull : List.lookup "num_sentences"
          (summarizeRequest (jsTrim (filledUI "abc").inputText)
            (parseInt (filledUI "abc").numSentences)).body = some JSONValue.null := by decide
      rw [hnull] at hx
      cases hx⟩

/-- C2, amended: for every text whose trimmed form is not empty, every
content of the sentence count and every outcome, one submit issues exactly
one request: method POST, URL /summarize, header Content-Type:
application/json, and a body of the two fields `text`, the trimmed input,
and `num_sentences`, the Number `parseInt` reads from the sentence count (a
zero without its sign), or `null` when `parseInt` gives `NaN` or an
infinity.  For a count that is the decimal digits of an integer below `2^53`
the field is that integer. -/
theorem submit_issues_one_post (outcome : FetchOutcome) (ui : UI)
    (h : jsTrim ui.inputText ≠ "") :
    ∃ ui1 effects req, onSubmit outcome ui = .ok (ui1, effects) ∧
      requests effects = [req] ∧
      req.method = "POST" ∧ req.url = "/summarize" ∧
      req.headers = [("Content-Type", "application/json")] ∧
      req.body.map Prod.fst = ["text", "num_sentences"] ∧
      req.body.lookup "text" = some (.string (jsTrim ui.inputText)) ∧
      (∀ neg m e, parseInt ui.numSentences = .fin neg m e → m ≠ 0 →
        req.body.lookup "num_sentences" = some (.number (.fin neg m e))) ∧
      (∀ neg e, parseInt ui.numSentences = .fin neg 0 e →
        req.body.lookup "num_sentences" = some (.number (.fin false 0 0))) ∧
      (parseInt ui.numSentences = .nan → req.body.lookup "num_sentences" = some .null) ∧
      (∀ neg, parseInt ui.numSentences = .inf neg →
        req.body.lookup "num_sentences" = some .null) ∧
      (∀ n, n < 2 ^ 53 → ui.numSentences = String.mk (decimalDigits n) →
        req.body.lookup "num_sentences" = some (.number (.fin false n 0))) := by
  obtain ⟨ui1, effects, hrun, hreq⟩ := onSubmit_requests outcome ui h
  have hl : ∀ x, (summarizeRequest (jsTrim ui.inputText) x).body.lookup "num_sentences"
      = some (jsonOfNumber x) := by
    intro x
    simp [summarizeRequest, List.lookup]
  refine ⟨ui1, effects, _, hrun, hreq, rfl, rfl, rfl, rfl, ?_, ?_, ?_, ?_, ?_, ?_⟩
  · simp [summarizeRequest, List.lookup]
  · intro neg m e hp hm
    rw [hl, hp]; simp [jsonOfNumber, hm]
  · intro neg e hp
    rw [hl, hp]; simp [jsonOfNumber]
  · intro hp
    rw [hl, hp]; rfl
  · intro neg hp
    rw [hl, hp]; rfl
  · intro n hn hs
    rw [hl, hs, parseInt_decimalDigits n hn]
    by_cases h0 : n = 0
    · subst h0; rfl
    · simp [jsonOfNumber, h0]

theorem submit_issues_one_post_witness :
    jsTrim (filledUI "3").inputText ≠ "" ∧
    ∃ ui1 effects req,
      onSubmit (.response true (summaryData "S" none)) (filledUI "3") = .ok (ui1, effects) ∧
      requests effects = [req] ∧
      req.method = "POST" ∧ req.url = "/summarize" ∧
      req.headers = [("Content-Type", "application/json")] ∧
      req.body.map Prod.fst = ["text", "num_sentences"] ∧
      req.body.lookup "text" = some (.string (jsTrim (filledUI "3").inputText)) ∧
      (∀ neg m e, parseInt (filledUI "3").numSentences = .fin neg m e → m ≠ 0 →
        req.body.lookup "num_sentences" = some (.number (.fin neg m e))) ∧
      (∀ neg e, parseInt (filledUI "3").numSentences = .fin neg 0 e →
        req.body.lookup "num_sentences" = some (.number (.fin false 0 0))) ∧
      (parseInt (filledUI "3").numSentences = .nan →
        req.body.lookup "num_sentences" = some .null) ∧
      (∀ neg, parseInt (filledUI "3").numSentences = .inf neg →
        req.body.lookup "num_sentences" = some .null) ∧
      (∀ n, n < 2 ^ 53 → (filledUI "3").numSentences = String.mk (decimalDigits n) →
        req.body.lookup "num_sentences" = some (.number (.fin false n 0))) :=
  ⟨by decide,
    submit_issues_one_post (.response true (summaryData "S" none)) (filledUI "3") (by decide)⟩

/-- C9, as the claim states it, fails: for the sentence count `0` a request
is issued whose `num_sentences` field is the number zero, not a positive
integer. -/
theorem zero_count_is_sent :
    ∃ ui1 effects req,
      onSubmit (.rejected "offline") (filledUI "0") = .ok (ui1, effects) ∧
      req ∈ requests effects ∧
      req.body.lookup "num_sentences" = some (.number (.fin false 0 0)) ∧
      (JSONValue.number (.fin false 0 0)).isPositiveInteger = false :=
  ⟨_, _, _, onSubmit_thrown _ "offline" _ (by decide) (Or.inl rfl), List.mem_singleton.mpr rfl,
    by decide, by decide⟩

/-- C9, amended: in every request a submission issues, the `text` field is
a string that is not empty, and the `num_sentences` field is `null` or an
integer, which may be zero or negative; it is a positive integer exactly
when `parseInt` reads a positive Number from the sentence count. -/
theorem request_payload_shape (outcome : FetchOutcome) (ui ui1 : UI) (effects : List Effect)
    (req : Request) (hrun : onSubmit outcome ui = .ok (ui1, effects))
    (hreq : req ∈ requests effects) :
    (∃ t, req.body.lookup "text" = some (.string t) ∧ t ≠ "") ∧
    (req.body.lookup "num_sentences" = some .null ∨
      ∃ neg m e, 0 ≤ e ∧ req.body.lookup "num_sentences" = some (.number (.fin neg m e))) ∧
    ∃ v, req.body.lookup "num_sentences" = some v ∧
      (v.isPositiveInteger = true ↔
        ∃ m e, m ≠ 0 ∧ parseInt ui.numSentences = .fin false m e) := by
  by_cases h : jsTrim ui.inputText = ""
  · rw [onSubmit_blank outcome ui h] at hrun
    injection hrun with hrun
    injection hrun with _ he
    rw [← he] at hreq
    simp [requests] at hreq
  · obtain ⟨ui2, effects2, hrun2, hreq2⟩ := onSubmit_requests outcome ui h
    rw [hrun2] at hrun
    injection hrun with hrun
    injection hrun with _ he
    rw [← he, hreq2, List.mem_singleton] at hreq
    subst hreq
    have hl : (summarizeRequest (jsTrim ui.inputText) (parseInt ui.numSentences)).body.lookup
        "num_sentences" = some (jsonOfNumber (parseInt ui.numSentences)) := by
      simp [summarizeRequest, List.lookup]
    refine ⟨⟨_, by simp [summarizeRequest, List.lookup], h⟩, ?_, _, hl, ?_⟩
    · rw [hl]
      rcases parseInt_shape ui.numSentences with hp | ⟨neg, hp⟩ | ⟨neg, m, e, he, hp⟩
      · rw [hp]; exact Or.inl rfl
      · rw [hp]; exact Or.inl rfl
      · rw [hp]
        by_cases hm : m = 0
        · exact Or.inr ⟨false, 0, 0, le_refl _, by simp [jsonOfNumber, hm]⟩
        · exact Or.inr ⟨neg, m, e, he, by simp [jsonOfNumber, hm]⟩
    · rcases parseInt_shape ui.numSentences with hp | ⟨neg, hp⟩ | ⟨neg, m, e, he, hp⟩
      · rw [hp]; simp [jsonOfNumber, JSONValue.isPositiveInteger]
      · rw [hp]; simp [jsonOfNumber, JSONValue.isPositiveInteger]
      · rw [hp]
        by_cases hm : m = 0
        · subst hm
          simp [jsonOfNumber, JSONValue.isPositiveInteger]
        · cases neg <;> simp [jsonOfNumber, JSONValue.isPositiveInteger, hm, he]

theorem request_payload_shape_witness :
    ∃ ui1 effects req,
      onSubmit (.rejected "offline") (filledUI "-2") = .ok (ui1, effects) ∧
      req ∈ requests effects ∧
      (∃ t, req.body.lookup "text" = some (.string t) ∧ t ≠ "") ∧
      (req.body.lookup "num_sentences" = some .null ∨
        ∃ neg m e, 0 ≤ e ∧ req.body.lookup "num_sentences" = some (.number (.fin neg m e))) ∧
      ∃ v, req.body.lookup "num_sentences" = some v ∧
        (v.isPositiveInteger = true ↔
          ∃ m e, m ≠ 0 ∧ parseInt (filledUI "-2").numSentences = .fin false m e) :=
  ⟨_, _, _, onSubmit_thrown _ "offline" _ (by decide) (Or.inl rfl), List.mem_singleton.mpr rfl,
    request_payload_shape (.rejected "offline") (filledUI "-2") _ _ _
      (onSubmit_thrown _ "offline" _ (by decide) (Or.inl rfl)) (List.mem_singleton.mpr rfl)⟩


/-! ## Success responses -/

/-- The page after the success branch for a `top_keywords` that is present
and not empty. -/
theorem showResult_keywords (data : ResponseData) (items : List (String × JSNumber)) (ui : UI)
    (hk : data.top_keywords = some items) (hne : items ≠ []) :
    (showResult data ui).1 =
      { ui with
        summaryContent := data.summary.getD ""
        summarySection := .block
        keywordsList := items.map keywordItem
        keywordsSection := .block } := by
  have hlen : 0 < items.length := List.length_pos.mpr hne
  simp [showResult, hk, hlen, foldl_appendKeyword]

/-- C4: for an OK response whose `top_keywords` is absent or the empty
sequence, and whatever the page was (a keyword region shown and filled by an
earlier submission included), the keyword region is hidden and the keyword
list has no entry when the handler ends. -/
theorem no_keywords_hides_region (data : ResponseData) (ui : UI)
    (h : jsTrim ui.inputText ≠ "")
    (hk : data.top_keywords = none ∨ data.top_keywords = some []) :
    ∃ ui1 effects, onSubmit (.response true data) ui = .ok (ui1, effects) ∧
      ui1.keywordsSection = .none ∧ ui1.keywordsList = [] := by
  refine ⟨_, _, onSubmit_response true data ui h, ?_, ?_⟩
  · rcases hk with hk | hk <;> simp [showResult, hk, pending]
  · rcases hk with hk | hk <;> simp [showResult, hk, pending]

theorem no_keywords_hides_region_witness :
    jsTrim (filledUI "3").inputText ≠ "" ∧
    (filledUI "3").keywordsSection = .block ∧ (filledUI "3").keywordsList ≠ [] ∧
    ∃ ui1 effects,
      onSubmit (.response true (summaryData "S" (some []))) (filledUI "3") = .ok (ui1, effects) ∧
      ui1.keywordsSection = .none ∧ ui1.keywordsList = [] :=
  ⟨by decide, rfl, by decide,
    no_keywords_hides_region (summaryData "S" (some [])) (filledUI "3") (by decide) (Or.inr rfl)⟩

/-- C3, as the claim states it, fails: the score `10^21` is rendered as
`1e+21`, which is not a text with 4 decimals. -/
theorem huge_score_not_four_decimals :
    ∃ ui1 effects,
      onSubmit (.response true (summaryData "S" (some [("x", .fin false (5 ^ 21 * 16) 17)])))
        (filledUI "3") = .ok (ui1, effects) ∧
      ui1.keywordsList =
        [{ className := "list-group-item d-flex justify-content-between align-items-center"
           innerHTML :=
             "\n                            <span>x</span>\n                            <span class=\"badge bg-primary rounded-pill\">1e+21</span>\n                        " }] ∧
      toFixed (.fin false (5 ^ 21 * 16) 17) 4 = "1e+21" ∧
      ¬ ∃ negative n, FixedDecimals 4 (toFixed (.fin false (5 ^ 21 * 16) 17) 4) negative n := by
  have ht : toFixed (.fin false (5 ^ 21 * 16) 17) 4 = "1e+21" := by decide
  refine ⟨_, _, onSubmit_response true _ _ (by decide), ?_, ht, ?_⟩
  · simp only [if_true]
    rw [showResult_keywords _ [("x", .fin false (5 ^ 21 * 16) 17)] _ rfl (by simp)]
    simp only [List.map, keywordItem, ht]
    decide
  · rintro ⟨negative, n, a, b, hdata, -⟩
    rw [ht] at hdata
    have hmem : '.' ∈ "1e+21".data := by rw [hdata]; simp
    revert hmem
    decide

/-- The markup of the entry of a keyword that is itself markup: the keyword
is put between the tags as it is. -/
theorem keywordItem_markup_keyword :
    (keywordItem ("<i>a</i>", .fin false 1 (-1))).innerHTML =
      "\n                            <span><i>a</i></span>\n                            <span class=\"badge bg-primary rounded-pill\">0.5000</span>\n                        " := by
  decide

/-- The entry of an item has the class of the list entries and ends with
the badge that holds the text of `toFixed(4)` of the score. -/
theorem keywordItem_badge (item : String × JSNumber) :
    (keywordItem item).className =
        "list-group-item d-flex justify-content-between align-items-center" ∧
      ∃ before, (keywordItem item).innerHTML =
        before ++ "<span class=\"badge bg-primary rounded-pill\">" ++ toFixed item.2 4 ++
          "</span>\n                        " := by
  refine ⟨rfl, "\n                            <span>" ++ item.1 ++
    "</span>\n                            ", ?_⟩
  apply String.ext
  simp [keywordItem, String.data_append]

/-- C3, amended: for an OK response with summary `S` and a `top_keywords`
of one or more (keyword, score) pairs, and whatever the page was, when the
handler ends the summary text is `S` and the summary region is visible; the
keyword list is one entry per pair, in the order of the response, with no
entry of an earlier submission; the badge of each entry holds the text of
`toFixed(4)` of the score of its pair; for a finite score of magnitude below
`10^21` that text has a minus sign for a negative score, one or more digits
without a needless leading zero, a point and exactly 4 digits, and reads as
the multiple of `0.0001` nearest the magnitude of the score; and the keyword
region is visible. -/
theorem success_renders_summary_and_keywords (data : ResponseData) (S : String)
    (items : List (String × JSNumber)) (ui : UI)
    (h : jsTrim ui.inputText ≠ "") (hs : data.summary = some S)
    (hk : data.top_keywords = some items) (hne : items ≠ []) :
    ∃ ui1 effects, onSubmit (.response true data) ui = .ok (ui1, effects) ∧
      ui1.summaryContent = S ∧ ui1.summarySection = .block ∧
      List.Forall₂
        (fun (entry : ListItem) (item : String × JSNumber) =>
          entry.className =
              "list-group-item d-flex justify-content-between align-items-center" ∧
            ∃ before, entry.innerHTML =
              before ++ "<span class=\"badge bg-primary rounded-pill\">" ++ toFixed item.2 4 ++
                "</span>\n                        ")
        ui1.keywordsList items ∧
      (∀ item ∈ items, ∀ neg m e, item.2 = .fin neg m e →
        (JSNumber.fin neg m e).isHuge = false →
        ∃ n, NearestScaled 4 m e n ∧
          FixedDecimals 4 (toFixed item.2 4) item.2.isNegative n) ∧
      ui1.keywordsSection = .block := by
  refine ⟨_, _, onSubmit_response true data ui h, ?_, ?_, ?_, ?_, ?_⟩
  · simp only [if_true]
    rw [showResult_keywords data items _ hk hne]
    simp [hs]
  · simp only [if_true]
    rw [showResult_keywords data items _ hk hne]
  · simp only [if_true]
    rw [showResult_keywords data items _ hk hne]
    show List.Forall₂ _ (items.map keywordItem) items
    rw [List.forall₂_map_left_iff]
    exact List.forall₂_same.mpr (fun item _ => keywordItem_badge item)
  · intro item _ neg m e hitem hh
    rw [hitem]
    exact ⟨_, scaledNearest_nearest 4 m e, toFixed_fixedDecimals 4 neg m e (by decide) hh⟩
  · simp only [if_true]
    rw [showResult_keywords data items _ hk hne]

theorem success_renders_summary_and_keywords_witness :
    jsTrim (filledUI "3").inputText ≠ "" ∧
    (filledUI "3").keywordsList ≠ [] ∧
    toFixed (.fin false 1 (-1)) 4 = "0.5000" ∧
    ∃ ui1 effects,
      onSubmit (.response true (summaryData "S" (some [("x", .fin false 1 (-1))]))) (filledUI "3")
        = .ok (ui1, effects) ∧
      ui1.summaryContent = "S" ∧ ui1.summarySection = .block ∧
      List.Forall₂
        (fun (entry : ListItem) (item : String × JSNumber) =>
          entry.className =
              "list-group-item d-flex justify-content-between align-items-center" ∧
            ∃ before, entry.innerHTML =
              before ++ "<span class=\"badge bg-primary rounded-pill\">" ++ toFixed item.2 4 ++
                "</span>\n                        ")
        ui1.keywordsList [("x", JSNumber.fin false 1 (-1))] ∧
      (∀ item ∈ [("x", JSNumber.fin false 1 (-1))], ∀ neg m e, item.2 = .fin neg m e →
        (JSNumber.fin neg m e).isHuge = false →
        ∃ n, NearestScaled 4 m e n ∧
          FixedDecimals 4 (toFixed item.2 4) item.2.isNegative n) ∧
      ui1.keywordsSection = .block :=
  ⟨by decide, by decide, by decide,
    success_renders_summary_and_keywords (summaryData "S" (some [("x", .fin false 1 (-1))])) "S"
      [("x", .fin false 1 (-1))] (filledUI "3") (by decide) rfl rfl (by simp)⟩

end TextSummarizer
